import Mathlib

/-!
Shallow embedding of the BakeGuru Stock Manager (src/inventory_app.py):
the guarded SQLite write helper, the URL thumbnail cache, the quote PDF
renderer, the product upsert of the Add Stock page, the draft-cart merge,
and the database writes issued by each user-facing action.

Numbers are modelled exactly (`ℤ` for Python ints, `ℚ` for floats), the
filesystem as an association list from path to file content, and the
network / the real SHA-1 digest as explicit function parameters, so every
definition is executable.
-/

namespace BakeGuru

/-! ### Guarded write helper (`exec_sql`, src/inventory_app.py lines 53-66) -/

/-- Substring test used as `"locked" in str(e).lower()`: true iff the
lower-cased message contains "locked". -/
def has_locked (msg : String) : Bool :=
  let cs := msg.toList.map Char.toLower
  (List.range (cs.length + 1)).any (fun i => "locked".toList.isPrefixOf (cs.drop i))

/-- A Python exception raised by one write attempt: either an
`sqlite3.OperationalError` with its message, or any other exception. -/
inductive PyErr where
  | opError (msg : String)
  | otherError (msg : String)
  deriving DecidableEq, Repr

/-- Test performed by the `except sqlite3.OperationalError` branch: the
exception is an OperationalError whose message contains "locked". Any
other exception is not caught at all (it propagates), which is observably
the same as being caught and immediately re-raised. -/
def is_lock_err : PyErr → Bool
  | .opError msg => has_locked msg
  | .otherError _ => false

/-- Outcome of one BEGIN/execute/COMMIT attempt inside `exec_sql`. -/
inductive AttemptResult where
  | ok
  | fail (e : PyErr)
  deriving DecidableEq, Repr

/-- How `exec_sql` finished: a normal return or a raised exception. -/
inductive ExecOutcome where
  | returned
  | raised (e : PyErr)
  deriving DecidableEq, Repr

/-- Observable trace of one `exec_sql` call: how it finished, how many
attempts ran, and the `time.sleep` durations performed, in order. -/
structure ExecTrace where
  outcome : ExecOutcome
  attemptsMade : ℕ
  sleeps : List ℚ
  deriving DecidableEq, Repr

/-- Loop body of `exec_sql`: `for attempt in range(5)`. `att k` is the
outcome of the k-th attempt (0-indexed); `attempt` is the current loop
index and `fuel` the remaining iterations. A successful attempt returns;
a failure that is a lock error with `attempt < 4` sleeps
`0.25 * (attempt + 1)` seconds and continues; any other failure re-raises.
If the loop were exhausted the function would return `None` normally
(unreachable for `fuel = 5`, since attempt 4 either returns or raises). -/
def exec_sql_go (att : ℕ → AttemptResult) : ℕ → ℕ → ExecTrace
  | attempt, 0 => ⟨.returned, attempt, []⟩
  | attempt, fuel + 1 =>
    match att attempt with
    | .ok => ⟨.returned, attempt + 1, []⟩
    | .fail e =>
      if is_lock_err e = true ∧ attempt < 4 then
        let rest := exec_sql_go att (attempt + 1) fuel
        ⟨rest.outcome, rest.attemptsMade, (0.25 : ℚ) * ((attempt : ℚ) + 1) :: rest.sleeps⟩
      else ⟨.raised e, attempt + 1, []⟩

/-- The write-with-retry helper `exec_sql`, as a function of the outcome of
each successive attempt. -/
def exec_sql (att : ℕ → AttemptResult) : ExecTrace :=
  exec_sql_go att 0 5

/-- Attempt `k` fails with a database-lock error. -/
def lock_fails (att : ℕ → AttemptResult) (k : ℕ) : Prop :=
  ∃ e, att k = .fail e ∧ is_lock_err e = true

/-! ### Thumbnail cache (`ensure_thumb_from_url`, src/inventory_app.py lines 123-147)

An image is modelled by its byte content (a `String`); decoding,
`thumbnail`, and the RGB conversion are pixel operations outside the scope
of the claims, so a successful fetch attempt directly yields the content
that gets saved. `sha1hex` stands for `hashlib.sha1(url.encode()).hexdigest()`
and is a parameter because the real digest is not re-implemented here; every
theorem holds for an arbitrary digest function. The filesystem is an
association list from path to content. -/

/-- Directory constants with `DATA_DIR` fixed to `"."` (the local default;
the `BAKEGURU_DATA_DIR` environment override only changes the prefix of
every path uniformly). -/
def THUMB_DIR : String := "./images/thumbs"

/-- Python string slice `s[:n]`: the first `n` characters. -/
def py_take (s : String) (n : ℕ) : String :=
  ⟨s.toList.take n⟩

/-- Cache file name: `f"{key}_{url_hash}_urlthumb"` with
`url_hash = sha1(url).hexdigest()[:16]`, then `os.path.join(THUMB_DIR, name + ".jpg")`. -/
def cache_path (sha1hex : String → String) (url key : String) : String :=
  THUMB_DIR ++ "/" ++ key ++ "_" ++ py_take (sha1hex url) 16 ++ "_urlthumb" ++ ".jpg"

/-- Model of `_pil_to_data_url` for JPEG output; base64 of the byte content
is modelled by the content itself (the encoding is injective and otherwise
irrelevant to the claims). -/
def pil_to_data_url (content : String) : String :=
  "data:image/jpeg;base64," ++ content

/-- Write `content` at `path`, replacing any previous file there. -/
def fs_save (fs : List (String × String)) (path content : String) : List (String × String) :=
  (path, content) :: fs.filter (fun entry => entry.1 ≠ path)

/-- Observable result of one `ensure_thumb_from_url` call: the returned
pair (data URL, cache path), the number of `requests.get` calls performed,
the sleeps performed, and the filesystem after the call. -/
structure ThumbResult where
  dataUrl : Option String
  path : Option String
  fetchCount : ℕ
  sleeps : List ℚ
  fs : List (String × String)
  deriving DecidableEq, Repr

/-- Fetch loop of `ensure_thumb_from_url`: `for attempt in range(3)`.
`fetch k` is the outcome of the k-th attempt (`some content` when
get/decode/resize/save all succeed, `none` when any step raises). A failed
attempt records the error and sleeps `0.4 * (attempt + 1)` seconds — also
after the last attempt, before the loop exits. On exhaustion the re-raised
`last_err` is caught by the outer `except Exception` which returns
`(None, None)`. -/
def ensure_thumb_go (fetch : ℕ → Option String) (cp : String)
    (fs : List (String × String)) : ℕ → ℕ → ThumbResult
  | _, 0 => ⟨none, none, 0, [], fs⟩
  | attempt, fuel + 1 =>
    match fetch attempt with
    | some content =>
        ⟨some (pil_to_data_url content), some cp, 1, [], fs_save fs cp content⟩
    | none =>
        let rest := ensure_thumb_go fetch cp fs (attempt + 1) fuel
        ⟨rest.dataUrl, rest.path, rest.fetchCount + 1,
          (0.4 : ℚ) * ((attempt : ℚ) + 1) :: rest.sleeps, rest.fs⟩

/-- The thumbnail cache `ensure_thumb_from_url(url, key, size, refresh)`:
if `refresh` is false and the cache file exists it is opened and returned
with no network fetch; otherwise up to three fetch attempts run. -/
def ensure_thumb_from_url (sha1hex : String → String) (fetch : ℕ → Option String)
    (fs : List (String × String)) (url key : String) (refresh : Bool) : ThumbResult :=
  let cp := cache_path sha1hex url key
  match (if refresh then none else fs.lookup cp) with
  | some content => ⟨some (pil_to_data_url content), some cp, 0, [], fs⟩
  | none => ensure_thumb_go fetch cp fs 0 3

/-! ### Quote PDF renderer (`render_quote_pdf`, src/inventory_app.py lines 174-242)

The renderer walks the item rows once, accumulating `total += qty * price`,
and prints one table row per item followed by a grand-total footer. The
model records, for each row, the values formatted into the Qty, Price and
Total cells, and the value formatted into the footer. The image cell is
drawn from `thumb_path` (or a freshly fetched thumbnail) and carries no
numeric content, so it is not part of the model; geometry (column widths,
row heights, page breaks) is likewise layout only. -/

/-- One row of the `items` dataframe. `qty` and `price` are `Option`s
because `r.get(...)` can yield a missing/`None` value, which
`int(... or 0)` / `float(... or 0)` turn into `0`. -/
structure QuoteItem where
  sku : String
  name : String
  qty : Option ℤ
  price : Option ℚ
  image_url : Option String
  thumb_path : Option String
  deriving DecidableEq, Repr

/-- Effective quantity: `int(r.get("qty", 0) or 0)`. -/
def item_qty (r : QuoteItem) : ℤ := r.qty.getD 0

/-- Effective unit price: `float(r.get("price", 0) or 0)`. -/
def item_price (r : QuoteItem) : ℚ := r.price.getD 0

/-- The `meta` dict handed to `render_quote_pdf`; `meta.get(k, '')` is
`Option.getD ""` on the corresponding field. -/
structure QuoteMeta where
  qno : Option String
  name : Option String
  company : Option String
  phone : Option String
  deriving DecidableEq, Repr

/-- Values printed into the Qty/Price/Total cells of one rendered table
row, plus the (truncated) SKU and the name cell. -/
structure RenderedRow where
  skuCell : String
  nameCell : String
  qtyVal : ℤ
  priceVal : ℚ
  totalVal : ℚ
  deriving DecidableEq, Repr

/-- The rendered quote document: header meta lines, table rows in item
order, the grand total of the footer, and the disclaimer line. -/
structure RenderedQuote where
  qnoLine : String
  customerLine : String
  phoneLine : String
  rows : List RenderedRow
  grandTotal : ℚ
  disclaimer : String
  deriving DecidableEq, Repr

/-- Table rows produced by the `for _, r in items.iterrows()` loop, in
input order; each row prints `line_total = qty * price`. -/
def render_rows : List QuoteItem → List RenderedRow
  | [] => []
  | r :: rs =>
      ⟨py_take r.sku 14, r.name, item_qty r, item_price r,
        (item_qty r : ℚ) * item_price r⟩ :: render_rows rs

/-- Accumulation of the `total` variable over the row loop: starts at
`0.0` and adds each row's `line_total` in input order. -/
def grand_total_acc : List QuoteItem → ℚ → ℚ
  | [], total => total
  | r :: rs, total => grand_total_acc rs (total + (item_qty r : ℚ) * item_price r)

/-- The quote PDF renderer `render_quote_pdf(meta, items)`. -/
def render_quote_pdf (meta : QuoteMeta) (items : List QuoteItem) : RenderedQuote :=
  { qnoLine := "Quote No: " ++ meta.qno.getD ""
    customerLine := "Customer: " ++ meta.name.getD "" ++ " | " ++ meta.company.getD ""
    phoneLine := "Phone: " ++ meta.phone.getD ""
    rows := render_rows items
    grandTotal := grand_total_acc items 0
    disclaimer := "Prices are exclusive of taxes, unless specified." }

/-! ### Products table and the Add Stock upsert (src/inventory_app.py lines 77-106 and 477-519)

The `products` table has `sku TEXT PRIMARY KEY`; the Add Stock form issues
`INSERT INTO products ... ON CONFLICT(sku) DO UPDATE SET <every non-key
column> = excluded.<column>`, so a conflicting insert rewrites the existing
row's non-key columns in place. The table is modelled as the list of its
rows. -/

/-- One row of the `products` table. -/
structure Product where
  sku : String
  name : String
  category : String
  subcategory : String
  price : ℚ
  image_url : String
  stock : ℤ
  deriving DecidableEq, Repr

/-- SQLite upsert `INSERT ... ON CONFLICT(sku) DO UPDATE`: when a row with
the same `sku` exists, every non-key column of that row is set to the
incoming value (the key is unchanged and equal, so the row becomes `p`);
otherwise the new row is appended. -/
def upsert_product (table : List Product) (p : Product) : List Product :=
  if p.sku ∈ table.map (fun r => r.sku) then
    table.map (fun r => if r.sku = p.sku then p else r)
  else table ++ [p]

/-- Number of rows of `table` whose SKU is `s`. -/
def count_sku (table : List Product) (s : String) : ℕ :=
  table.countP (fun r => r.sku == s)

/-- Python `str.strip()`: remove leading and trailing whitespace. -/
def py_strip (s : String) : String :=
  ⟨((s.toList.dropWhile Char.isWhitespace).reverse.dropWhile Char.isWhitespace).reverse⟩

/-- Submission handler of the Add Stock form: rejects an empty SKU or name
(`if not sku or not name`) with an inline error and no write; otherwise
upserts the stripped form values. Returns the new table and the message
shown to the user. -/
def page_add_stock (table : List Product) (sku name category subcategory : String)
    (price : ℚ) (image_url : String) (stock : ℤ) : List Product × String :=
  if sku = "" ∨ name = "" then (table, "SKU and Name are required")
  else
    (upsert_product table
      ⟨py_strip sku, py_strip name, py_strip category, py_strip subcategory, price,
        py_strip image_url, stock⟩,
      "Product saved.")

/-! ### Draft-cart merge (src/inventory_app.py lines 451-462 and 546-548)

Both "Add to Draft Quote" and the Quote Builder combine step concatenate
two row sets and run
`groupby(["sku","name","price","image_url","thumb_path"], dropna=False,
as_index=False)["qty"].sum()`: one output row per distinct key 5-tuple,
whose qty is the sum of the grouped rows' qtys. Only the multiset of
output rows is modelled (pandas additionally sorts the groups by key,
which no claim concerns). -/

/-- One row of a draft cart / selection. `image_url` and `thumb_path` may
be null (`None`/`NaN`), which `dropna=False` keeps as an ordinary key
value. -/
structure CartRow where
  sku : String
  name : String
  price : ℚ
  image_url : Option String
  thumb_path : Option String
  qty : ℤ
  deriving DecidableEq, Repr

/-- The grouping key of the merge. -/
def row_key (r : CartRow) : String × String × ℚ × Option String × Option String :=
  (r.sku, r.name, r.price, r.image_url, r.thumb_path)

/-- Fold step of the grouped sum: either add the row's qty into the
existing group with the same key, or open a new group. -/
def insert_row (acc : List CartRow) (r : CartRow) : List CartRow :=
  if row_key r ∈ acc.map row_key then
    acc.map (fun x => if row_key x = row_key r then { x with qty := x.qty + r.qty } else x)
  else acc ++ [r]

/-- The `groupby([...])["qty"].sum()` aggregation. -/
def group_qty (rows : List CartRow) : List CartRow :=
  rows.foldl insert_row []

/-- The `add["qty"] = 1` step: a selected stock row enters the draft with
quantity one. -/
def set_qty_one (r : CartRow) : CartRow :=
  { r with qty := 1 }

/-- "Add to Draft Quote": selected rows get `qty = 1`, are concatenated to
the previous draft and grouped. -/
def add_to_draft_quote (draft sel : List CartRow) : List CartRow :=
  group_qty (draft ++ sel.map set_qty_one)

/-- Quote Builder combine: draft rows plus the extra multiselect rows,
grouped the same way. -/
def quote_builder_combine (draft extra : List CartRow) : List CartRow :=
  group_qty (draft ++ extra)

/-- Number of rows of `rows` with grouping key `k`. -/
def key_count (rows : List CartRow) (k : String × String × ℚ × Option String × Option String) : ℕ :=
  rows.countP (fun r => decide (row_key r = k))

/-- Total quantity carried by the rows of `rows` with grouping key `k`. -/
def qty_of_key (rows : List CartRow) (k : String × String × ℚ × Option String × Option String) : ℤ :=
  ((rows.filter (fun r => decide (row_key r = k))).map (fun r => r.qty)).sum

/-! ### Database writes per user action (src/inventory_app.py)

Every statement of the program that mutates database rows, by the action
that issues it. The startup `executescript(SCHEMA)` (lines 108-109) only
runs `CREATE TABLE IF NOT EXISTS` and touches no row. The Generate PDF
handler of the Quote Builder (lines 587-603) builds thumbnails, renders
the PDF and stores it in session state; it issues no SQL at all — in
particular nothing in the program ever inserts into, updates, or deletes
from the `quotes` table; `page_quotes_history` (lines 628-630) only
reads it. -/

/-- Tables of the schema (plus the Diagnostics `_ping` scratch table). -/
inductive DbTable where
  | products
  | quotes
  | quote_items
  | ping
  deriving DecidableEq, Repr

/-- Kind of row-mutating statement. -/
inductive WriteKind where
  | insertRow
  | updateRow
  | deleteRow
  | upsertRow
  deriving DecidableEq, Repr

/-- One row-mutating SQL statement: which table and what kind. -/
structure SqlWrite where
  table : DbTable
  kind : WriteKind
  deriving DecidableEq, Repr

/-- Session state relevant to the Quote Builder: the draft cart and the
last generated PDF (quote number and rendered document). -/
structure Session where
  draft_cart : List CartRow
  last_pdf : Option (String × RenderedQuote)
  deriving Repr

/-- A cart row as passed to `render_quote_pdf` (qty and price are present
columns of the cart dataframe). -/
def cart_to_item (r : CartRow) : QuoteItem :=
  ⟨r.sku, r.name, some r.qty, some r.price, r.image_url, r.thumb_path⟩

/-- The Generate PDF click handler: renders the cart into a PDF, stores it
in `st.session_state["last_pdf"]`, and issues no database write. -/
def generate_pdf_action (sess : Session) (cart : List CartRow) (meta : QuoteMeta)
    (qno : String) : Session × List SqlWrite :=
  ({ sess with last_pdf := some (qno, render_quote_pdf meta (cart.map cart_to_item)) }, [])

/-- The user-facing actions of the program that can reach the database,
carrying the inputs that determine which statements run. -/
inductive ProgramAction where
  | initSchema
  | saveChanges (rows : List Product)
  | addStock (sku name : String)
  | generatePdf (sess : Session) (cart : List CartRow) (meta : QuoteMeta) (qno : String)
  | diagPing
  deriving Repr

/-- Row-mutating statements issued by each action: Save Changes runs one
`UPDATE products` per edited row; Add Stock runs the products upsert
unless the form is rejected; Diagnostics inserts into `_ping`; the schema
script and Generate PDF mutate no rows. -/
def action_writes : ProgramAction → List SqlWrite
  | .initSchema => []
  | .saveChanges rows => rows.map (fun _ => ⟨.products, .updateRow⟩)
  | .addStock sku name =>
      if sku = "" ∨ name = "" then [] else [⟨.products, .upsertRow⟩]
  | .generatePdf sess cart meta qno => (generate_pdf_action sess cart meta qno).2
  | .diagPing => [⟨.ping, .insertRow⟩]

/-! ## Theorems -/

/-- C5: when no usable cached file exists (refresh requested or no cache
entry) and all three fetch attempts fail, `ensure_thumb_from_url` performs
exactly three attempts, sleeps 0.4 s, 0.8 s and 1.2 s, and returns
`(None, None)` with the filesystem untouched, raising nothing to the
caller. -/
theorem ensure_thumb_retries_then_null
    (sha1hex : String → String) (fetch : ℕ → Option String)
    (fs : List (String × String)) (url key : String) (refresh : Bool)
    (hmiss : refresh = true ∨ fs.lookup (cache_path sha1hex url key) = none)
    (hfail : ∀ k, k < 3 → fetch k = none) :
    ensure_thumb_from_url sha1hex fetch fs url key refresh =
      ⟨none, none, 3, [(0.4 : ℚ), 0.8, 1.2], fs⟩ := by
  have h0 := hfail 0 (by norm_num)
  have h1 := hfail 1 (by norm_num)
  have h2 := hfail 2 (by norm_num)
  have hloop : ensure_thumb_go fetch (cache_path sha1hex url key) fs 0 3 =
      ⟨none, none, 3, [(0.4 : ℚ), 0.8, 1.2], fs⟩ := by
    simp [ensure_thumb_go, h0, h1, h2]
    norm_num
  rcases hmiss with hr | hnone
  · subst hr
    simpa [ensure_thumb_from_url] using hloop
  · cases refresh
    · simpa [ensure_thumb_from_url, hnone] using hloop
    · simpa [ensure_thumb_from_url] using hloop

/-- C5 witness: with an empty cache and a network that always fails, the
call returns the null pair after three attempts and the three backoffs. -/
theorem ensure_thumb_retries_then_null_witness :
    ensure_thumb_from_url (fun _ => "0123456789abcdef0123") (fun _ => none) []
        "http://example.com/a.png" "SKU-1" false =
      ⟨none, none, 3, [(0.4 : ℚ), 0.8, 1.2], []⟩ :=
  ensure_thumb_retries_then_null (fun _ => "0123456789abcdef0123") (fun _ => none) []
    "http://example.com/a.png" "SKU-1" false (Or.inr rfl) (fun _ _ => rfl)

/-- Whenever the fetch loop returns a path, it is the cache path it was
given, and that path now exists on the filesystem it returns. -/
theorem ensure_thumb_go_path (fetch : ℕ → Option String) (cp : String)
    (fs : List (String × String)) (attempt fuel : ℕ) :
    (ensure_thumb_go fetch cp fs attempt fuel).path = none ∨
      ((ensure_thumb_go fetch cp fs attempt fuel).path = some cp ∧
        ((ensure_thumb_go fetch cp fs attempt fuel).fs).lookup cp ≠ none) := by
  induction fuel generalizing attempt with
  | zero => exact Or.inl rfl
  | succ f ih =>
    cases hf : fetch attempt with
    | none => simpa [ensure_thumb_go, hf] using ih (attempt + 1)
    | some content =>
      right
      refine ⟨by simp [ensure_thumb_go, hf], ?_⟩
      simp [ensure_thumb_go, hf, fs_save, List.lookup]

/-- Whenever `ensure_thumb_from_url` returns a path, it is the cache path
derived from the URL hash and the key, and that file exists afterwards. -/
theorem ensure_thumb_path_cases (sha1hex : String → String) (fetch : ℕ → Option String)
    (fs : List (String × String)) (url key : String) (refresh : Bool) :
    (ensure_thumb_from_url sha1hex fetch fs url key refresh).path = none ∨
      ((ensure_thumb_from_url sha1hex fetch fs url key refresh).path =
          some (cache_path sha1hex url key) ∧
        ((ensure_thumb_from_url sha1hex fetch fs url key refresh).fs).lookup
            (cache_path sha1hex url key) ≠ none) := by
  cases refresh with
  | true =>
    unfold ensure_thumb_from_url
    simpa using ensure_thumb_go_path fetch (cache_path sha1hex url key) fs 0 3
  | false =>
    unfold ensure_thumb_from_url
    cases hl : fs.lookup (cache_path sha1hex url key) with
    | none => simpa [hl] using ensure_thumb_go_path fetch (cache_path sha1hex url key) fs 0 3
    | some content =>
      right
      refine ⟨by simp [hl], by simp [hl]⟩

/-- Calling the cache with `refresh = false` when the cache file exists
returns its content with no fetch, no sleep, and the filesystem unchanged. -/
theorem ensure_thumb_cache_hit (sha1hex : String → String) (fetch : ℕ → Option String)
    (fs : List (String × String)) (url key content : String)
    (hl : fs.lookup (cache_path sha1hex url key) = some content) :
    ensure_thumb_from_url sha1hex fetch fs url key false =
      ⟨some (pil_to_data_url content), some (cache_path sha1hex url key), 0, [], fs⟩ := by
  unfold ensure_thumb_from_url
  simp [hl]

/-- C7: if a first call with `refresh = false` returned a cache path (hit
or successful fetch-and-persist), a second call on the resulting
filesystem with the same URL and key and `refresh = false` performs zero
network fetches, returns the same cached file, and leaves the filesystem
unchanged. -/
theorem ensure_thumb_second_call_uses_cache
    (sha1hex : String → String) (fetch1 fetch2 : ℕ → Option String)
    (fs : List (String × String)) (url key p : String)
    (h1 : (ensure_thumb_from_url sha1hex fetch1 fs url key false).path = some p) :
    (ensure_thumb_from_url sha1hex fetch2
        (ensure_thumb_from_url sha1hex fetch1 fs url key false).fs url key false).fetchCount = 0
    ∧ (ensure_thumb_from_url sha1hex fetch2
        (ensure_thumb_from_url sha1hex fetch1 fs url key false).fs url key false).path = some p
    ∧ (ensure_thumb_from_url sha1hex fetch2
        (ensure_thumb_from_url sha1hex fetch1 fs url key false).fs url key false).fs =
      (ensure_thumb_from_url sha1hex fetch1 fs url key false).fs := by
  rcases ensure_thumb_path_cases sha1hex fetch1 fs url key false with hnone | ⟨hp, hfs⟩
  · rw [h1] at hnone; cases hnone
  · have hpeq : p = cache_path sha1hex url key := by
      rw [h1] at hp; exact Option.some.inj hp
    obtain ⟨content, hl⟩ := Option.ne_none_iff_exists'.mp hfs
    rw [ensure_thumb_cache_hit sha1hex fetch2 _ url key content hl]
    exact ⟨rfl, by rw [hpeq], rfl⟩

/-- C7 witness: after a first call that fetches and persists the
thumbnail, the second call for the same URL and key is a pure cache hit:
no fetch, same path, filesystem unchanged. -/
theorem ensure_thumb_second_call_uses_cache_witness :
    (ensure_thumb_from_url (fun _ => "0123456789abcdef0123") (fun _ => none)
        (ensure_thumb_from_url (fun _ => "0123456789abcdef0123") (fun _ => some "JPEGDATA")
          [] "http://example.com/a.png" "SKU-1" false).fs
        "http://example.com/a.png" "SKU-1" false).fetchCount = 0
    ∧ (ensure_thumb_from_url (fun _ => "0123456789abcdef0123") (fun _ => none)
        (ensure_thumb_from_url (fun _ => "0123456789abcdef0123") (fun _ => some "JPEGDATA")
          [] "http://example.com/a.png" "SKU-1" false).fs
        "http://example.com/a.png" "SKU-1" false).path =
      some "./images/thumbs/SKU-1_0123456789abcdef_urlthumb.jpg"
    ∧ (ensure_thumb_from_url (fun _ => "0123456789abcdef0123") (fun _ => none)
        (ensure_thumb_from_url (fun _ => "0123456789abcdef0123") (fun _ => some "JPEGDATA")
          [] "http://example.com/a.png" "SKU-1" false).fs
        "http://example.com/a.png" "SKU-1" false).fs =
      (ensure_thumb_from_url (fun _ => "0123456789abcdef0123") (fun _ => some "JPEGDATA")
          [] "http://example.com/a.png" "SKU-1" false).fs :=
  ensure_thumb_second_call_uses_cache (fun _ => "0123456789abcdef0123") (fun _ => some "JPEGDATA")
    (fun _ => none) [] "http://example.com/a.png" "SKU-1"
    "./images/thumbs/SKU-1_0123456789abcdef_urlthumb.jpg" (by decide)

/-- C9 counterexample: the cache file is not a function of the URL alone.
With the same URL (hence the same digest) but different caller keys the
derived cache paths differ, so the claim that any two calls with the same
URL map to the same on-disk file is false. -/
theorem cache_path_not_url_only :
    ¬ ∀ (sha1hex : String → String) (url k₁ k₂ : String),
        cache_path sha1hex url k₁ = cache_path sha1hex url k₂ := by
  intro h
  have h2 := h (fun _ => "0123456789abcdef0123") "http://example.com/a.png" "SKU-1" "SKU-2"
  exact absurd h2 (by decide)

/-- C9 (amended): the cache filename is derived from the caller key and
the first 16 hex digits of the URL digest, so any call that yields a path
yields exactly this one; in particular any two calls with the same URL and
the same key map to the same on-disk cache file. -/
theorem cache_path_from_key_and_truncated_hash
    (sha1hex : String → String) (fetch : ℕ → Option String)
    (fs : List (String × String)) (url key : String) (refresh : Bool) :
    cache_path sha1hex url key =
        THUMB_DIR ++ "/" ++ key ++ "_" ++ py_take (sha1hex url) 16 ++ "_urlthumb" ++ ".jpg"
    ∧ ((ensure_thumb_from_url sha1hex fetch fs url key refresh).path = none ∨
        (ensure_thumb_from_url sha1hex fetch fs url key refresh).path =
          some (cache_path sha1hex url key)) := by
  refine ⟨rfl, ?_⟩
  rcases ensure_thumb_path_cases sha1hex fetch fs url key refresh with hnone | ⟨hp, _⟩
  · exact Or.inl hnone
  · exact Or.inr hp

/-- Unfolding one lock-retry iteration of the `exec_sql` loop. -/
theorem exec_sql_go_lock_step (att : ℕ → AttemptResult) (attempt fuel : ℕ) (e : PyErr)
    (h : att attempt = .fail e) (hl : is_lock_err e = true) (h4 : attempt < 4) :
    exec_sql_go att attempt (fuel + 1) =
      ⟨(exec_sql_go att (attempt + 1) fuel).outcome,
        (exec_sql_go att (attempt + 1) fuel).attemptsMade,
        (0.25 : ℚ) * ((attempt : ℚ) + 1) :: (exec_sql_go att (attempt + 1) fuel).sleeps⟩ := by
  simp [exec_sql_go, h, hl, h4]

/-- C1: if every one of the five attempts fails with a database-lock
`OperationalError`, `exec_sql` sleeps 0.25 s, 0.5 s, 0.75 s and 1.0 s
between successive attempts, makes five attempts in total, and re-raises
the last underlying lock error; and whenever an attempt succeeds (after
any run of lock failures), `exec_sql` returns normally. -/
theorem exec_sql_gives_up_after_five_lock_failures
    (att : ℕ → AttemptResult) (msgs : ℕ → String)
    (hall : ∀ k, k < 5 → att k = .fail (.opError (msgs k)) ∧ has_locked (msgs k) = true) :
    exec_sql att = ⟨.raised (.opError (msgs 4)), 5, [(0.25 : ℚ), 0.5, 0.75, 1]⟩
    ∧ ∀ (att2 : ℕ → AttemptResult) (j : ℕ), j < 5 →
        (∀ k, k < j → lock_fails att2 k) → att2 j = .ok →
        (exec_sql att2).outcome = .returned := by
  constructor
  · have h0 := hall 0 (by norm_num)
    have h1 := hall 1 (by norm_num)
    have h2 := hall 2 (by norm_num)
    have h3 := hall 3 (by norm_num)
    have h4 := hall 4 (by norm_num)
    simp [exec_sql, exec_sql_go, h0.1, h1.1, h2.1, h3.1, h4.1, is_lock_err,
      h0.2, h1.2, h2.2, h3.2, h4.2]
    norm_num
  · intro att2 j hj hprev hok
    interval_cases j
    · simp [exec_sql, exec_sql_go, hok]
    · obtain ⟨e0, he0, hl0⟩ := hprev 0 (by norm_num)
      simp [exec_sql, exec_sql_go, he0, hl0, hok]
    · obtain ⟨e0, he0, hl0⟩ := hprev 0 (by norm_num)
      obtain ⟨e1, he1, hl1⟩ := hprev 1 (by norm_num)
      simp [exec_sql, exec_sql_go, he0, hl0, he1, hl1, hok]
    · obtain ⟨e0, he0, hl0⟩ := hprev 0 (by norm_num)
      obtain ⟨e1, he1, hl1⟩ := hprev 1 (by norm_num)
      obtain ⟨e2, he2, hl2⟩ := hprev 2 (by norm_num)
      simp [exec_sql, exec_sql_go, he0, hl0, he1, hl1, he2, hl2, hok]
    · obtain ⟨e0, he0, hl0⟩ := hprev 0 (by norm_num)
      obtain ⟨e1, he1, hl1⟩ := hprev 1 (by norm_num)
      obtain ⟨e2, he2, hl2⟩ := hprev 2 (by norm_num)
      obtain ⟨e3, he3, hl3⟩ := hprev 3 (by norm_num)
      simp [exec_sql, exec_sql_go, he0, hl0, he1, hl1, he2, hl2, he3, hl3, hok]

/-- C1 witness: with every attempt failing as "database is locked",
`exec_sql` raises that error after five attempts, having slept
0.25, 0.5, 0.75 and 1 second. -/
theorem exec_sql_gives_up_after_five_lock_failures_witness :
    exec_sql (fun _ => .fail (.opError "database is locked")) =
      ⟨.raised (.opError "database is locked"), 5, [(0.25 : ℚ), 0.5, 0.75, 1]⟩ :=
  (exec_sql_gives_up_after_five_lock_failures
    (fun _ => .fail (.opError "database is locked"))
    (fun _ => "database is locked")
    (fun _ _ => ⟨rfl, by show has_locked "database is locked" = true; decide⟩)).1

/-- C6: if the attempts before attempt `j` all fail with lock errors and
attempt `j` fails with an error that is not a database-lock conflict,
`exec_sql` raises that error at once: `j + 1` attempts in total and no
further sleep (only the `j` backoffs already performed). -/
theorem exec_sql_nonlock_error_propagates
    (att : ℕ → AttemptResult) (j : ℕ) (e : PyErr) (hj : j < 5)
    (hprev : ∀ k, k < j → lock_fails att k)
    (hfail : att j = .fail e) (hnl : is_lock_err e = false) :
    (exec_sql att).outcome = .raised e ∧ (exec_sql att).attemptsMade = j + 1 ∧
      (exec_sql att).sleeps.length = j := by
  interval_cases j
  · simp [exec_sql, exec_sql_go, hfail, hnl]
  · obtain ⟨e0, he0, hl0⟩ := hprev 0 (by norm_num)
    simp [exec_sql, exec_sql_go, he0, hl0, hfail, hnl]
  · obtain ⟨e0, he0, hl0⟩ := hprev 0 (by norm_num)
    obtain ⟨e1, he1, hl1⟩ := hprev 1 (by norm_num)
    simp [exec_sql, exec_sql_go, he0, hl0, he1, hl1, hfail, hnl]
  · obtain ⟨e0, he0, hl0⟩ := hprev 0 (by norm_num)
    obtain ⟨e1, he1, hl1⟩ := hprev 1 (by norm_num)
    obtain ⟨e2, he2, hl2⟩ := hprev 2 (by norm_num)
    simp [exec_sql, exec_sql_go, he0, hl0, he1, hl1, he2, hl2, hfail, hnl]
  · obtain ⟨e0, he0, hl0⟩ := hprev 0 (by norm_num)
    obtain ⟨e1, he1, hl1⟩ := hprev 1 (by norm_num)
    obtain ⟨e2, he2, hl2⟩ := hprev 2 (by norm_num)
    obtain ⟨e3, he3, hl3⟩ := hprev 3 (by norm_num)
    simp [exec_sql, exec_sql_go, he0, hl0, he1, hl1, he2, hl2, he3, hl3, hfail, hnl]

/-- Accumulator form of the grand total: the running `total` plus the sum
of the rendered line totals. -/
theorem grand_total_acc_eq (items : List QuoteItem) (t : ℚ) :
    grand_total_acc items t = t + ((render_rows items).map (fun r => r.totalVal)).sum := by
  induction items generalizing t with
  | nil => simp [grand_total_acc, render_rows]
  | cons r rs ih => simp [grand_total_acc, render_rows, ih]; ring

/-- C2: in every rendered quote, each table row's Total cell holds that
row's Qty times its Price, and the grand total of the footer is the sum of
the line totals over the rows in input order. -/
theorem render_quote_pdf_totals (meta : QuoteMeta) (items : List QuoteItem) :
    (render_quote_pdf meta items).rows.map (fun r => r.totalVal) =
        (render_quote_pdf meta items).rows.map (fun r => (r.qtyVal : ℚ) * r.priceVal)
    ∧ (render_quote_pdf meta items).grandTotal =
        ((render_quote_pdf meta items).rows.map (fun r => r.totalVal)).sum := by
  constructor
  · show (render_rows items).map _ = (render_rows items).map _
    induction items with
    | nil => rfl
    | cons r rs ih => simpa [render_rows] using ih
  · show grand_total_acc items 0 = _
    simpa using grand_total_acc_eq items 0

/-- C8: a quote with zero items renders with an empty table and a grand
total of zero (the renderer is total on the empty item list). -/
theorem render_quote_pdf_empty (meta : QuoteMeta) :
    (render_quote_pdf meta []).grandTotal = 0 ∧ (render_quote_pdf meta []).rows = [] := by
  exact ⟨rfl, rfl⟩

/-- Upserting a SKU that is already present leaves every SKU count
unchanged (rows are rewritten in place, none added). -/
theorem count_sku_upsert_mem (table : List Product) (p : Product)
    (hmem : p.sku ∈ table.map (fun r => r.sku)) (s : String) :
    count_sku (upsert_product table p) s = count_sku table s := by
  unfold upsert_product count_sku
  rw [if_pos hmem, List.countP_map]
  refine List.countP_congr (fun r _ => ?_)
  by_cases h : r.sku = p.sku <;> simp [h]

/-- Upserting a fresh SKU appends one row with that SKU. -/
theorem count_sku_upsert_new (table : List Product) (p : Product)
    (hmem : p.sku ∉ table.map (fun r => r.sku)) (s : String) :
    count_sku (upsert_product table p) s =
      count_sku table s + (if p.sku = s then 1 else 0) := by
  unfold upsert_product count_sku
  rw [if_neg hmem, List.countP_append]
  by_cases h : p.sku = s <;> simp [List.countP_cons, h]

/-- C3: if the products table holds at most one row per SKU, then after
any Add Stock submission it still holds at most one row per SKU; and when
the submitted SKU is already present, the table's row count is unchanged
(the existing row is updated in place, no second row is added). -/
theorem add_stock_upsert_no_duplicate
    (table : List Product) (sku name category subcategory : String)
    (price : ℚ) (image_url : String) (stock : ℤ)
    (h : ∀ s, count_sku table s ≤ 1) :
    (∀ s, count_sku
        (page_add_stock table sku name category subcategory price image_url stock).1 s ≤ 1)
    ∧ (count_sku table (py_strip sku) = 1 →
        (page_add_stock table sku name category subcategory price image_url stock).1.length
          = table.length) := by
  unfold page_add_stock
  by_cases hrej : sku = "" ∨ name = ""
  · simp only [if_pos hrej]
    exact ⟨h, fun _ => trivial⟩
  · simp only [if_neg hrej]
    set p : Product :=
      ⟨py_strip sku, py_strip name, py_strip category, py_strip subcategory, price,
        py_strip image_url, stock⟩
    by_cases hmem : p.sku ∈ table.map (fun r => r.sku)
    · refine ⟨fun s => ?_, fun _ => ?_⟩
      · rw [count_sku_upsert_mem table p hmem s]; exact h s
      · show (upsert_product table p).length = table.length
        unfold upsert_product
        rw [if_pos hmem, List.length_map]
    · refine ⟨fun s => ?_, fun hcount => ?_⟩
      · rw [count_sku_upsert_new table p hmem s]
        by_cases hs : p.sku = s
        · subst hs
          have hz : count_sku table p.sku = 0 := by
            unfold count_sku
            refine List.countP_eq_zero.mpr (fun r hr hbeq => ?_)
            exact hmem (List.mem_map.mpr ⟨r, hr, by simpa using hbeq⟩)
          simp [hz]
        · simpa [hs] using h s
      · exfalso
        have hpos : 0 < table.countP (fun r => r.sku == py_strip sku) := by
          have : count_sku table (py_strip sku) = 1 := hcount
          unfold count_sku at this; omega
        obtain ⟨r, hr, hbeq⟩ := List.countP_pos_iff.mp hpos
        exact hmem (List.mem_map.mpr ⟨r, hr, by simpa using hbeq⟩)

/-- C3 witness: upserting SKU-1, which the one-row table already holds,
keeps at most one row for SKU-1 and leaves the table at one row. -/
theorem add_stock_upsert_no_duplicate_witness :
    count_sku (page_add_stock [⟨"SKU-1", "Old Box", "Packaging", "Cake Box", 10, "", 5⟩]
        "SKU-1" "New Box" "Packaging" "Cake Box" 12 "http://img" 7).1 "SKU-1" ≤ 1
    ∧ (page_add_stock [⟨"SKU-1", "Old Box", "Packaging", "Cake Box", 10, "", 5⟩]
        "SKU-1" "New Box" "Packaging" "Cake Box" 12 "http://img" 7).1.length = 1 := by
  have h := add_stock_upsert_no_duplicate
    [⟨"SKU-1", "Old Box", "Packaging", "Cake Box", 10, "", 5⟩]
    "SKU-1" "New Box" "Packaging" "Cake Box" 12 "http://img" 7
    (fun s => le_trans (List.countP_le_length _) (by simp))
  exact ⟨h.1 "SKU-1", h.2 (by decide)⟩

/-- C6 witness: a non-lock `OperationalError` on the first attempt is
raised immediately, after a single attempt and with no sleep. -/
theorem exec_sql_nonlock_error_propagates_witness :
    (exec_sql (fun _ => .fail (.opError "no such table: products"))).outcome =
        .raised (.opError "no such table: products") ∧
      (exec_sql (fun _ => .fail (.opError "no such table: products"))).attemptsMade = 1 ∧
      (exec_sql (fun _ => .fail (.opError "no such table: products"))).sleeps.length = 0 :=
  exec_sql_nonlock_error_propagates (fun _ => .fail (.opError "no such table: products"))
    0 (.opError "no such table: products") (by norm_num) (fun k hk => absurd hk (by omega))
    rfl (by decide)

/-- Updating a row's qty does not change its grouping key. -/
theorem row_key_update_qty (x : CartRow) (q : ℤ) : row_key { x with qty := q } = row_key x :=
  rfl

/-- Keys after one fold step: unchanged when the key was present, the key
appended when it was new. -/
theorem insert_row_keys (acc : List CartRow) (r : CartRow) :
    (insert_row acc r).map row_key =
      if row_key r ∈ acc.map row_key then acc.map row_key
      else acc.map row_key ++ [row_key r] := by
  unfold insert_row
  by_cases h : row_key r ∈ acc.map row_key
  · rw [if_pos h, if_pos h, List.map_map]
    refine List.map_congr_left (fun x _ => ?_)
    by_cases hx : row_key x = row_key r
    · rw [Function.comp_apply, if_pos hx]
      exact row_key_update_qty x _
    · rw [Function.comp_apply, if_neg hx]
  · rw [if_neg h, if_neg h, List.map_append]
    rfl

/-- One fold step preserves distinctness of the group keys. -/
theorem insert_row_keys_nodup (acc : List CartRow) (r : CartRow)
    (h : (acc.map row_key).Nodup) : ((insert_row acc r).map row_key).Nodup := by
  rw [insert_row_keys]
  by_cases hm : row_key r ∈ acc.map row_key
  · simpa [hm] using h
  · simp [hm, List.nodup_append, h]

/-- Per-key quantity of a cons. -/
theorem qty_of_key_cons (r : CartRow) (rs : List CartRow)
    (k : String × String × ℚ × Option String × Option String) :
    qty_of_key (r :: rs) k = (if row_key r = k then r.qty else 0) + qty_of_key rs k := by
  unfold qty_of_key
  by_cases h : row_key r = k <;> simp [List.filter_cons, h]

/-- Per-key quantity of a concatenation. -/
theorem qty_of_key_append (l₁ l₂ : List CartRow)
    (k : String × String × ℚ × Option String × Option String) :
    qty_of_key (l₁ ++ l₂) k = qty_of_key l₁ k + qty_of_key l₂ k := by
  unfold qty_of_key
  rw [List.filter_append, List.map_append, List.sum_append]

/-- One fold step moves the incoming row's qty to its group: distinct keys
in the accumulator guarantee that exactly one group row absorbs it. -/
theorem qty_of_key_insert_row (acc : List CartRow) (r : CartRow)
    (k : String × String × ℚ × Option String × Option String)
    (hnd : (acc.map row_key).Nodup) :
    qty_of_key (insert_row acc r) k =
      qty_of_key acc k + (if row_key r = k then r.qty else 0) := by
  unfold insert_row
  by_cases hm : row_key r ∈ acc.map row_key
  · rw [if_pos hm]
    induction acc with
    | nil => simp at hm
    | cons x xs ih =>
      simp only [List.map_cons, List.nodup_cons] at hnd
      simp only [List.map_cons, List.mem_cons] at hm
      rw [List.map_cons]
      by_cases hx : row_key x = row_key r
      · have hnotin : row_key r ∉ xs.map row_key := by rw [← hx]; exact hnd.1
        have hid : xs.map (fun y =>
            if row_key y = row_key r then { y with qty := y.qty + r.qty } else y) = xs := by
          have h1 : xs.map (fun y =>
              if row_key y = row_key r then { y with qty := y.qty + r.qty } else y) =
              xs.map (fun y => y) := by
            refine List.map_congr_left (fun y hy => ?_)
            have hne : row_key y ≠ row_key r :=
              fun hc => hnotin (hc ▸ List.mem_map_of_mem row_key hy)
            simp [hne]
          simpa using h1
        rw [if_pos hx, hid, qty_of_key_cons, qty_of_key_cons]
        have hfx : row_key ({ x with qty := x.qty + r.qty } : CartRow) = row_key x :=
          row_key_update_qty x _
        rw [hfx, ← hx]
        by_cases hk : row_key x = k
        · simp only [if_pos hk]
          ring
        · simp [hk]
      · have hm2 : row_key r ∈ xs.map row_key := by
          rcases hm with hm1 | hm2
          · exact absurd hm1.symm hx
          · exact hm2
        rw [if_neg hx, qty_of_key_cons, ih hnd.2 hm2, qty_of_key_cons]
        ring
  · rw [if_neg hm, qty_of_key_append, qty_of_key_cons]
    show _ = _ + (if row_key r = k then r.qty else 0)
    simp [qty_of_key]

/-- Distinct keys bound the per-key row count by one. -/
theorem key_count_le_one_of_nodup (rows : List CartRow)
    (k : String × String × ℚ × Option String × Option String)
    (h : (rows.map row_key).Nodup) : key_count rows k ≤ 1 := by
  induction rows with
  | nil => simp [key_count]
  | cons r rs ih =>
    simp only [List.map_cons, List.nodup_cons] at h
    unfold key_count
    rw [List.countP_cons]
    by_cases hk : row_key r = k
    · have hz : rs.countP (fun x => decide (row_key x = k)) = 0 := by
        refine List.countP_eq_zero.mpr (fun x hx hd => ?_)
        have hxk : row_key x = k := of_decide_eq_true hd
        exact h.1 (by rw [← hk] at hxk; exact hxk ▸ List.mem_map_of_mem row_key hx)
      simp [hk, hz]
    · have hle := ih h.2
      unfold key_count at hle
      simp [hk]
      omega

/-- The grouped sum: distinct keys, per-key quantity preserved, and the
same set of keys as the input rows. -/
theorem group_qty_fold (rows : List CartRow) (acc : List CartRow)
    (hnd : (acc.map row_key).Nodup) :
    ((rows.foldl insert_row acc).map row_key).Nodup ∧
    (∀ k, qty_of_key (rows.foldl insert_row acc) k = qty_of_key acc k + qty_of_key rows k) ∧
    (∀ k, k ∈ (rows.foldl insert_row acc).map row_key ↔
        k ∈ acc.map row_key ∨ k ∈ rows.map row_key) := by
  induction rows generalizing acc with
  | nil =>
    refine ⟨hnd, fun k => by simp [qty_of_key], fun k => by simp⟩
  | cons r rs ih =>
    have hnd2 := insert_row_keys_nodup acc r hnd
    obtain ⟨H1, H2, H3⟩ := ih (insert_row acc r) hnd2
    refine ⟨H1, fun k => ?_, fun k => ?_⟩
    · show qty_of_key (rs.foldl insert_row (insert_row acc r)) k = _
      rw [H2 k, qty_of_key_insert_row acc r k hnd, qty_of_key_cons]
      ring
    · show k ∈ (rs.foldl insert_row (insert_row acc r)).map row_key ↔ _
      rw [H3 k, insert_row_keys]
      by_cases hm : row_key r ∈ acc.map row_key
      · rw [if_pos hm]
        simp only [List.map_cons, List.mem_cons]
        constructor
        · rintro (h1 | h2)
          · exact Or.inl h1
          · exact Or.inr (Or.inr h2)
        · rintro (h1 | hk | h2)
          · exact Or.inl h1
          · exact Or.inl (hk ▸ hm)
          · exact Or.inr h2
      · rw [if_neg hm]
        simp only [List.mem_append, List.mem_singleton, List.map_cons, List.mem_cons]
        tauto

/-- C10: after an "Add to Draft Quote" merge and after the Quote Builder
draft-plus-extra merge, the cart has at most one row per
(sku, name, price, image_url, thumb_path) key, that row's qty is the sum
of the merged rows' quantities for that key, and exactly the input keys
appear — so rows sharing a SKU but differing in another key field stay
separate. -/
theorem draft_cart_merge_spec (draft sel extra : List CartRow)
    (k : String × String × ℚ × Option String × Option String) :
    (key_count (add_to_draft_quote draft sel) k ≤ 1
      ∧ qty_of_key (add_to_draft_quote draft sel) k =
          qty_of_key (draft ++ sel.map set_qty_one) k
      ∧ (k ∈ (add_to_draft_quote draft sel).map row_key ↔
          k ∈ (draft ++ sel.map set_qty_one).map row_key))
    ∧ (key_count (quote_builder_combine draft extra) k ≤ 1
      ∧ qty_of_key (quote_builder_combine draft extra) k = qty_of_key (draft ++ extra) k
      ∧ (k ∈ (quote_builder_combine draft extra).map row_key ↔
          k ∈ (draft ++ extra).map row_key)) := by
  have hnil : (([] : List CartRow).map row_key).Nodup := List.nodup_nil
  constructor
  · obtain ⟨H1, H2, H3⟩ :=
      group_qty_fold (draft ++ sel.map set_qty_one) [] hnil
    refine ⟨key_count_le_one_of_nodup _ k H1, ?_, ?_⟩
    · show qty_of_key (group_qty _) k = _
      unfold group_qty
      rw [H2 k]
      simp [qty_of_key]
    · show k ∈ (group_qty _).map row_key ↔ _
      unfold group_qty
      rw [H3 k]
      simp only [List.map_nil, List.not_mem_nil, false_or]
  · obtain ⟨H1, H2, H3⟩ := group_qty_fold (draft ++ extra) [] hnil
    refine ⟨key_count_le_one_of_nodup _ k H1, ?_, ?_⟩
    · show qty_of_key (group_qty _) k = _
      unfold group_qty
      rw [H2 k]
      simp [qty_of_key]
    · show k ∈ (group_qty _).map row_key ↔ _
      unfold group_qty
      rw [H3 k]
      simp only [List.map_nil, List.not_mem_nil, false_or]

/-- C4: the Generate PDF action — here a concrete finalized cart of one
item with quote number Q20251012-0001 — issues zero inserts into the
`quotes` table (the claim expects exactly one header row), and no action
of the program ever issues any statement against `quotes` at all. -/
theorem quotes_table_never_written :
    (action_writes (.generatePdf ⟨[], none⟩
        [⟨"SKU-1", "Paper Cake Box 8x8", 25, some "http://img", none, 2⟩]
        ⟨some "Q20251012-0001", some "QA", some "BakeGuru", some ""⟩
        "Q20251012-0001")).countP
        (fun w => decide (w.table = DbTable.quotes ∧ w.kind = WriteKind.insertRow)) = 0
    ∧ ∀ a : ProgramAction,
        (action_writes a).countP (fun w => decide (w.table = DbTable.quotes)) = 0 := by
  refine ⟨rfl, fun a => ?_⟩
  cases a with
  | initSchema => rfl
  | saveChanges rows =>
    induction rows with
    | nil => rfl
    | cons r rs ih =>
      simp only [action_writes, List.map_cons, List.countP_cons] at ih ⊢
      simp only [ih]
      rfl
  | addStock sku name =>
    by_cases h : sku = "" ∨ name = "" <;> simp [action_writes, h]
  | generatePdf sess cart meta qno => rfl
  | diagPing => rfl

end BakeGuru
